import Mathlib

/-!
Verification of the theo-ai orchestration layer against its design
specification.  The Python sources are shallowly embedded: dictionaries
become association lists, mutable per-chat maps become explicit state
passing, HTTP interactions become an explicit outcome datatype, and
exceptions become `Except` / effect traces.
-/

namespace TheoAI

/-- A JSON-like value as the Python code passes it around: `null`,
strings, integers, and opaque list payloads (used for pass-through data
such as raw tool-call dictionaries, which the embedded code never
inspects beyond emptiness). -/
inductive Val where
  | null
  | str (s : String)
  | num (n : Int)
  | blobList (xs : List String)
deriving DecidableEq, Repr

/-! ## Conversation buffer (src/telegram/bot.py)

`chat_contexts[chat_id]` is a list of message dictionaries with keys
`role`, `name`, `content`.  `process_message` appends the inbound user
message and trims the list to its last `MAX_CONTEXT_LENGTH` entries
(lines 263-276); on a successful backend reply it appends the assistant
message without trimming (lines 332-341). -/

/-- One entry of a chat context: the dict built at bot.py lines 268-272
and 335-339. -/
structure CtxMsg where
  role : String
  name : String
  content : String
deriving DecidableEq, Repr

/-- `MAX_CONTEXT_LENGTH = 10` (bot.py line 39). -/
def MAX_CONTEXT_LENGTH : Nat := 10

/-- The last `n` elements of a list (Python `l[-n:]` for `n ≥ 1`). -/
def lastN (n : Nat) (l : List CtxMsg) : List CtxMsg :=
  l.drop (l.length - n)

/-- bot.py lines 268-276: append the inbound message to the chat context
and, if the length now exceeds `MAX_CONTEXT_LENGTH`, keep only the last
`MAX_CONTEXT_LENGTH` entries. -/
def append_user_message (buf : List CtxMsg) (m : CtxMsg) : List CtxMsg :=
  if MAX_CONTEXT_LENGTH < (buf ++ [m]).length
    then lastN MAX_CONTEXT_LENGTH (buf ++ [m])
    else buf ++ [m]

theorem lastN_of_le {n : Nat} {l : List CtxMsg} (h : l.length ≤ n) :
    lastN n l = l := by
  simp [lastN, Nat.sub_eq_zero_of_le h]

theorem append_user_message_eq_lastN (buf : List CtxMsg) (m : CtxMsg) :
    append_user_message buf m = lastN MAX_CONTEXT_LENGTH (buf ++ [m]) := by
  unfold append_user_message
  by_cases h : MAX_CONTEXT_LENGTH < (buf ++ [m]).length
  · rw [if_pos h]
  · rw [if_neg h, lastN_of_le (Nat.le_of_not_lt h)]

theorem length_lastN (n : Nat) (l : List CtxMsg) :
    (lastN n l).length = min n l.length := by
  simp [lastN]
  omega

theorem lastN_append_left (n : Nat) (xs ys : List CtxMsg) :
    lastN n (lastN n xs ++ ys) = lastN n (xs ++ ys) := by
  by_cases h : n ≤ xs.length
  · unfold lastN
    have hlast : (xs.drop (xs.length - n)).length = n := by
      simp; omega
    have h1 : (xs.drop (xs.length - n) ++ ys).length - n = ys.length := by
      simp [hlast]
    have h3 : (xs ++ ys).drop (xs.length - n) = xs.drop (xs.length - n) ++ ys := by
      rw [List.drop_append_eq_append_drop,
          Nat.sub_eq_zero_of_le (Nat.sub_le xs.length n), List.drop_zero]
    have h4 : (xs ++ ys).drop ((xs ++ ys).length - n)
        = ((xs ++ ys).drop (xs.length - n)).drop ys.length := by
      rw [List.drop_drop]
      congr 1
      simp
      omega
    rw [h1, h4, h3]
  · have hx : lastN n xs = xs := lastN_of_le (Nat.le_of_not_lt (by omega))
    rw [hx]

/-- Folding the user-message append over a list of messages starting from
a buffer of length at most `MAX_CONTEXT_LENGTH` yields exactly the last
`MAX_CONTEXT_LENGTH` entries of the whole stream. -/
theorem foldl_append_user_message (msgs : List CtxMsg) :
    ∀ buf : List CtxMsg, buf.length ≤ MAX_CONTEXT_LENGTH →
      msgs.foldl append_user_message buf = lastN MAX_CONTEXT_LENGTH (buf ++ msgs) := by
  induction msgs with
  | nil =>
    intro buf h
    simp [lastN_of_le h]
  | cons m ms ih =>
    intro buf h
    have hstep : append_user_message buf m = lastN MAX_CONTEXT_LENGTH (buf ++ [m]) :=
      append_user_message_eq_lastN buf m
    have hlen : (append_user_message buf m).length ≤ MAX_CONTEXT_LENGTH := by
      rw [hstep]
      rw [length_lastN]
      omega
    calc (m :: ms).foldl append_user_message buf
        = ms.foldl append_user_message (append_user_message buf m) := rfl
      _ = lastN MAX_CONTEXT_LENGTH (append_user_message buf m ++ ms) := ih _ hlen
      _ = lastN MAX_CONTEXT_LENGTH (lastN MAX_CONTEXT_LENGTH (buf ++ [m]) ++ ms) := by
          rw [hstep]
      _ = lastN MAX_CONTEXT_LENGTH ((buf ++ [m]) ++ ms) := lastN_append_left _ _ _
      _ = lastN MAX_CONTEXT_LENGTH (buf ++ (m :: ms)) := by
          rw [List.append_assoc]
          rfl

/-! ## Backend dispatch from the bot (src/telegram/bot.py, lines 318-354)

The single `httpx` POST and its handling.  `response.raise_for_status()`
raises `httpx.HTTPStatusError` exactly when the status is not 2xx; the
handler catches it and replies with a fixed apology.  `httpx.RequestError`
and any other exception are caught by the two later `except` clauses. -/

/-- Result of `response.json().get("response")`: `malformed` = the body
was not valid JSON (so `response.json()` raised), `parsed f` = it parsed
and the `response` field is `f` (`none` = absent or `null`). -/
inductive JsonBody where
  | malformed
  | parsed (responseField : Option String)
deriving DecidableEq, Repr

/-- Outcome of the one POST to the backend `/chat` endpoint.  `response`
is a received HTTP response: its status code together with its parsed
body.  `netError` stands for `httpx.RequestError`, `otherError` for any
other exception raised inside the `try` block. -/
inductive ApiOutcome where
  | response (status : Nat) (body : JsonBody)
  | netError (msg : String)
  | otherError (msg : String)
deriving DecidableEq, Repr

/-- Observable actions of the message handler, in order. -/
inductive Effect where
  | httpPost (contextMessages : List CtxMsg)
  | logInfo (s : String)
  | logWarning (s : String)
  | logError (s : String)
  | reply (text : String)
deriving DecidableEq, Repr

/-- bot.py line 348. -/
def HTTP_ERROR_REPLY : String := "Sorry, I encountered an error processing your request."

/-- bot.py line 351. -/
def CONNECT_ERROR_REPLY : String := "Sorry, I couldn\x27t connect to the AI service."

/-- bot.py line 354. -/
def UNEXPECTED_ERROR_REPLY : String := "An unexpected error occurred."

/-- bot.py lines 327-354: `raise_for_status`, JSON parsing, the truthiness
test on `response_data.get("response")`, the assistant-message append on
line 335 (note: no trim), and the three `except` clauses.  Returns the
new buffer plus the effect trace after the POST. -/
def handle_dispatch (buf : List CtxMsg) (outcome : ApiOutcome) :
    List CtxMsg × List Effect :=
  match outcome with
  | .response status body =>
    if 200 ≤ status ∧ status < 300 then
      match body with
      | .malformed =>
        (buf, [.logError "unexpected", .reply UNEXPECTED_ERROR_REPLY])
      | .parsed (some s) =>
        if s ≠ "" then
          (buf ++ [⟨"assistant", "theo-ai", s⟩], [.logInfo "ai_response", .reply s])
        else
          (buf, [.logWarning "empty_response"])
      | .parsed none => (buf, [.logWarning "empty_response"])
    else
      (buf, [.logError "http_status", .reply HTTP_ERROR_REPLY])
  | .netError _ => (buf, [.logError "request_error", .reply CONNECT_ERROR_REPLY])
  | .otherError _ => (buf, [.logError "unexpected", .reply UNEXPECTED_ERROR_REPLY])

/-- bot.py lines 263-354 restricted to one chat: append the user message
(with trim), send the payload (whose `messages` field is the trimmed
buffer), handle the outcome.  Total: every exception path ends in a
logged reply, none escapes. -/
def process_message (buf : List CtxMsg) (m : CtxMsg) (outcome : ApiOutcome) :
    List CtxMsg × List Effect :=
  let b1 := append_user_message buf m
  let r := handle_dispatch b1 outcome
  (r.1, Effect.httpPost b1 :: r.2)

/-- The assistant message appended by `handle_dispatch`, if any. -/
def assistant_msg : ApiOutcome → Option CtxMsg
  | .response status (.parsed (some s)) =>
    if 200 ≤ status ∧ status < 300 then
      if s ≠ "" then some ⟨"assistant", "theo-ai", s⟩ else none
    else none
  | _ => none

/-- Buffer evolution over a sequence of inbound messages, each with the
outcome of its backend call, starting from the empty (lazily created)
context of a fresh chat. -/
def process_events (events : List (CtxMsg × ApiOutcome)) : List CtxMsg :=
  events.foldl (fun buf e => (process_message buf e.1 e.2).1) []

theorem handle_dispatch_fst (buf : List CtxMsg) (oc : ApiOutcome) :
    (handle_dispatch buf oc).1 = buf ++ (assistant_msg oc).toList := by
  match oc with
  | .netError m => simp [handle_dispatch, assistant_msg]
  | .otherError m => simp [handle_dispatch, assistant_msg]
  | .response status body =>
    by_cases h2 : 200 ≤ status ∧ status < 300
    · match body with
      | .malformed => simp [handle_dispatch, assistant_msg, h2]
      | .parsed none => simp [handle_dispatch, assistant_msg, h2]
      | .parsed (some s) =>
        by_cases hs : s = ""
        · simp [handle_dispatch, assistant_msg, h2, hs]
        · simp [handle_dispatch, assistant_msg, h2, hs]
    · match body with
      | .malformed => simp [handle_dispatch, assistant_msg, h2]
      | .parsed none => simp [handle_dispatch, assistant_msg, h2]
      | .parsed (some s) => simp [handle_dispatch, assistant_msg, h2]

theorem process_message_fst (buf : List CtxMsg) (m : CtxMsg) (oc : ApiOutcome) :
    (process_message buf m oc).1
      = append_user_message buf m ++ (assistant_msg oc).toList := by
  unfold process_message
  exact handle_dispatch_fst _ _

theorem length_append_user_message (buf : List CtxMsg) (m : CtxMsg) :
    (append_user_message buf m).length ≤ MAX_CONTEXT_LENGTH := by
  rw [append_user_message_eq_lastN, length_lastN]
  omega

theorem length_process_message_fst (buf : List CtxMsg) (m : CtxMsg) (oc : ApiOutcome) :
    (process_message buf m oc).1.length ≤ MAX_CONTEXT_LENGTH + 1 := by
  rw [process_message_fst]
  have h1 := length_append_user_message buf m
  have h2 : (assistant_msg oc).toList.length ≤ 1 := by
    cases assistant_msg oc <;> simp
  simp only [List.length_append]
  omega

/-- Six inbound messages, each answered successfully by the backend. -/
def six_replied_events : List (CtxMsg × ApiOutcome) :=
  (List.range 6).map
    (fun i => (⟨"user", "u", toString i⟩, ApiOutcome.response 200 (.parsed (some "reply"))))

/-- C1 counterexample: after six processed messages that each received a
successful backend reply, the chat's buffer holds 11 messages.  The
assistant-message append (bot.py line 335) happens after the trim and is
itself never trimmed, so the buffer length is not, as claimed, at most 10
after every mutation. -/
theorem conversation_buffer_cap_counterexample :
    (process_events six_replied_events).length = 11 ∧
      ¬ (process_events six_replied_events).length ≤ MAX_CONTEXT_LENGTH := by
  constructor
  · rfl
  · decide

/-- C1 (amended): after any sequence of processed messages the buffer
length is at most `MAX_CONTEXT_LENGTH + 1 = 11`; and when no backend
reply causes an assistant append, the buffer equals exactly the
`min(k, 10)` most recently appended inbound messages in arrival order,
so its length is `min(k, 10)`. -/
theorem conversation_buffer_cap :
    (∀ events, (process_events events).length ≤ MAX_CONTEXT_LENGTH + 1) ∧
    (∀ events, (∀ e ∈ events, assistant_msg e.2 = none) →
      process_events events = lastN MAX_CONTEXT_LENGTH (events.map Prod.fst) ∧
        (process_events events).length = min MAX_CONTEXT_LENGTH events.length) := by
  constructor
  · intro events
    unfold process_events
    have key : ∀ (es : List (CtxMsg × ApiOutcome)) (buf : List CtxMsg),
        buf.length ≤ MAX_CONTEXT_LENGTH + 1 →
        (es.foldl (fun buf e => (process_message buf e.1 e.2).1) buf).length
          ≤ MAX_CONTEXT_LENGTH + 1 := by
      intro es
      induction es with
      | nil => intro buf h; exact h
      | cons e es ih =>
        intro buf _
        exact ih _ (length_process_message_fst buf e.1 e.2)
    exact key events [] (by simp)
  · intro events hnone
    have key : ∀ (es : List (CtxMsg × ApiOutcome)) (buf : List CtxMsg),
        (∀ e ∈ es, assistant_msg e.2 = none) →
        es.foldl (fun buf e => (process_message buf e.1 e.2).1) buf
          = (es.map Prod.fst).foldl append_user_message buf := by
      intro es
      induction es with
      | nil => intro buf _; rfl
      | cons e es ih =>
        intro buf h
        have hstep : (process_message buf e.1 e.2).1 = append_user_message buf e.1 := by
          rw [process_message_fst, h e (by simp)]
          simp
        calc ((e :: es).foldl (fun buf e => (process_message buf e.1 e.2).1) buf)
            = es.foldl (fun buf e => (process_message buf e.1 e.2).1)
                ((process_message buf e.1 e.2).1) := rfl
          _ = (es.map Prod.fst).foldl append_user_message (append_user_message buf e.1) := by
              rw [hstep]
              exact ih _ (fun x hx => h x (by simp [hx]))
          _ = ((e :: es).map Prod.fst).foldl append_user_message buf := rfl
    have heq : process_events events
        = lastN MAX_CONTEXT_LENGTH (events.map Prod.fst) := by
      unfold process_events
      rw [key events [] hnone]
      have := foldl_append_user_message (events.map Prod.fst) [] (by simp)
      simpa using this
    refine ⟨heq, ?_⟩
    rw [heq, length_lastN]
    simp

/-- Two inbound messages whose backend calls fail (so no assistant
message is appended). -/
def two_failed_events : List (CtxMsg × ApiOutcome) :=
  [(⟨"user", "alice", "hi"⟩, ApiOutcome.response 500 .malformed),
   (⟨"user", "bob", "yo"⟩, ApiOutcome.netError "down")]

/-- Witness for `conversation_buffer_cap` at a concrete event list. -/
theorem conversation_buffer_cap_witness :
    (process_events two_failed_events).length ≤ MAX_CONTEXT_LENGTH + 1 ∧
      process_events two_failed_events
        = lastN MAX_CONTEXT_LENGTH (two_failed_events.map Prod.fst) ∧
      (process_events two_failed_events).length
        = min MAX_CONTEXT_LENGTH two_failed_events.length :=
  ⟨conversation_buffer_cap.1 two_failed_events,
   (conversation_buffer_cap.2 two_failed_events (by decide)).1,
   (conversation_buffer_cap.2 two_failed_events (by decide)).2⟩

/-- C5: a backend call that returns a non-2xx status makes the handler
produce exactly one POST (never retried), one error log, and exactly one
reply, whose text is the fixed apology string; the buffer keeps only the
trimmed user append, and the handler returns normally (totality of
`process_message`), so no exception escapes. -/
theorem dispatch_http_error_reply (buf : List CtxMsg) (m : CtxMsg)
    (status : Nat) (body : JsonBody) (h : ¬ (200 ≤ status ∧ status < 300)) :
    process_message buf m (.response status body)
      = (append_user_message buf m,
         [Effect.httpPost (append_user_message buf m),
          Effect.logError "http_status",
          Effect.reply HTTP_ERROR_REPLY]) := by
  simp [process_message, handle_dispatch, h]

/-- Witness for `dispatch_http_error_reply`: an HTTP 500 response. -/
theorem dispatch_http_error_reply_witness :
    process_message [] ⟨"user", "alice", "hi"⟩ (.response 500 .malformed)
      = ([⟨"user", "alice", "hi"⟩],
         [Effect.httpPost [⟨"user", "alice", "hi"⟩],
          Effect.logError "http_status",
          Effect.reply HTTP_ERROR_REPLY]) := by
  rw [dispatch_http_error_reply [] ⟨"user", "alice", "hi"⟩ 500 .malformed (by decide)]
  rfl

/-! ## String helpers (Python `str.startswith`, `str.strip`) -/

/-- Python `str.startswith`. -/
def str_starts_with (s p : String) : Bool :=
  p.toList.isPrefixOf s.toList

/-- Whitespace as Python `str.strip()` removes it. -/
def is_py_space (c : Char) : Bool :=
  c = ' ' ∨ c = '\t' ∨ c = '\n' ∨ c = '\r' ∨ c = Char.ofNat 11 ∨ c = Char.ofNat 12

/-- Python `str.strip()`: remove leading and trailing whitespace. -/
def py_strip (s : String) : String :=
  ⟨((s.toList.dropWhile is_py_space).reverse.dropWhile is_py_space).reverse⟩

/-! ## Per-chat settings store (src/telegram/bot.py)

`chat_settings` maps a chat id to a dict holding (where present) the keys
`model_provider` and `model_id`.  Reads go through
`chat_settings.get(chat_id, {})` followed by per-key `.get` with the
global defaults (lines 96-99 and 278-281); writes happen only in
`button_callback` (lines 205-241). -/

/-- A per-chat settings dict; each key may be absent. -/
structure ChatSettings where
  model_provider : Option String := none
  model_id : Option String := none
deriving DecidableEq, Repr

/-- `DEFAULT_MODEL_PROVIDER` / `DEFAULT_MODEL_ID` (utils/config.py lines
102-103).  Both come from the environment, so the embedding treats them
as parameters. -/
structure Defaults where
  provider : String
  modelId : String
deriving DecidableEq, Repr

/-- The `chat_settings` dict, as an insertion-ordered association list
with unique keys (first match wins). -/
abbrev SettingsStore := List (String × ChatSettings)

/-- Python `chat_settings.get(chatId)` / `chatId in chat_settings`. -/
def getChat : SettingsStore → String → Option ChatSettings
  | [], _ => none
  | (c, s) :: rest, chatId =>
    if c = chatId then some s else getChat rest chatId

/-- Python `chat_settings[chatId] = v`: overwrite in place, or append for
a new key. -/
def putChat : SettingsStore → String → ChatSettings → SettingsStore
  | [], chatId, v => [(chatId, v)]
  | (c, s) :: rest, chatId, v =>
    if c = chatId then (c, v) :: rest else (c, s) :: putChat rest chatId v

/-- Python `chat_settings[chatId][k] = x` for an existing entry. -/
def setChat : SettingsStore → String → (ChatSettings → ChatSettings) → SettingsStore
  | [], _, _ => []
  | (c, s) :: rest, chatId, f =>
    if c = chatId then (c, f s) :: rest else (c, s) :: setChat rest chatId f

/-- bot.py lines 96-99 and 278-281: `chat_settings.get(chat_id, {})`, then
`settings.get("model_provider", DEFAULT_MODEL_PROVIDER)` and
`settings.get("model_id", DEFAULT_MODEL_ID)`. -/
def get_or_default (d : Defaults) (store : SettingsStore) (chatId : String) :
    String × String :=
  let s := (getChat store chatId).getD {}
  (s.model_provider.getD d.provider, s.model_id.getD d.modelId)

/-- The settings read inside `status_command` / `process_message`,
threaded through the handler state: the pair read plus the resulting
store. -/
def read_settings (d : Defaults) (store : SettingsStore) (chatId : String) :
    (String × String) × SettingsStore :=
  (get_or_default d store chatId, store)

/-- bot.py lines 205-241 (`button_callback`), restricted to its effect on
`chat_settings`: lazily initialise the chat's entry with the defaults,
then handle `provider:<id>` / `model:<id>` callback data
(`callback_data.split(":", 1)[1]` is the text after the first colon). -/
def button_callback (d : Defaults) (store : SettingsStore) (chatId : String)
    (callback_data : String) : SettingsStore :=
  let st1 :=
    if getChat store chatId = none
      then putChat store chatId ⟨some d.provider, some d.modelId⟩
      else store
  if str_starts_with callback_data "provider:" then
    setChat st1 chatId
      (fun s => { s with model_provider := some (callback_data.drop 9) })
  else if str_starts_with callback_data "model:" then
    setChat st1 chatId
      (fun s => { s with model_id := some (callback_data.drop 6) })
  else st1

theorem getChat_putChat_self (store : SettingsStore) (c : String) (v : ChatSettings) :
    getChat (putChat store c v) c = some v := by
  induction store with
  | nil => simp [putChat, getChat]
  | cons p rest ih =>
    obtain ⟨pc, ps⟩ := p
    by_cases h : pc = c
    · simp [putChat, getChat, h]
    · simp [putChat, getChat, h, ih]

theorem getChat_setChat_self (store : SettingsStore) (c : String)
    (f : ChatSettings → ChatSettings) :
    getChat (setChat store c f) c = (getChat store c).map f := by
  induction store with
  | nil => simp [setChat, getChat]
  | cons p rest ih =>
    obtain ⟨pc, ps⟩ := p
    by_cases h : pc = c
    · simp [setChat, getChat, h]
    · simp [setChat, getChat, h, ih]

/-- C6: reading a chat's settings never mutates the settings store; the
read returns the stored pair when one is stored and the global default
pair otherwise, and two consecutive reads with no intervening write
return identical values. -/
theorem read_settings_no_mutation (d : Defaults) (store : SettingsStore)
    (chatId : String) :
    (read_settings d store chatId).2 = store ∧
    (read_settings d store chatId).1
      = (read_settings d (read_settings d store chatId).2 chatId).1 ∧
    (getChat store chatId = none →
      (read_settings d store chatId).1 = (d.provider, d.modelId)) ∧
    (∀ p m, getChat store chatId = some ⟨some p, some m⟩ →
      (read_settings d store chatId).1 = (p, m)) := by
  refine ⟨rfl, rfl, ?_, ?_⟩
  · intro h
    simp [read_settings, get_or_default, h]
  · intro p m h
    simp [read_settings, get_or_default, h]

/-- A concrete settings store with one configured chat. -/
def demo_store : SettingsStore := [("42", ⟨some "openai", some "gpt-4o"⟩)]

/-- Witness for `read_settings_no_mutation`: a stored chat ("42") and an
unseen chat ("99") against the concrete store. -/
theorem read_settings_no_mutation_witness :
    (read_settings ⟨"formation", "best-quality"⟩ demo_store "42").2 = demo_store ∧
    (read_settings ⟨"formation", "best-quality"⟩ demo_store "42").1
      = ("openai", "gpt-4o") ∧
    (read_settings ⟨"formation", "best-quality"⟩ demo_store "99").1
      = ("formation", "best-quality") :=
  ⟨(read_settings_no_mutation ⟨"formation", "best-quality"⟩ demo_store "42").1,
   (read_settings_no_mutation ⟨"formation", "best-quality"⟩ demo_store "42").2.2.2
      "openai" "gpt-4o" (by decide),
   (read_settings_no_mutation ⟨"formation", "best-quality"⟩ demo_store "99").2.2.1
      (by decide)⟩

/-- C7: for any chat and any prior store contents, the `/model` selection
sequence — callback `provider:openai` followed by callback `model:gpt-4o`
— leaves that chat's stored settings equal to
`{model_provider: "openai", model_id: "gpt-4o"}`. -/
theorem model_selection_sequence (d : Defaults) (store : SettingsStore)
    (chatId : String) :
    getChat
      (button_callback d (button_callback d store chatId "provider:openai")
        chatId "model:gpt-4o") chatId
      = some ⟨some "openai", some "gpt-4o"⟩ := by
  have hp1 : str_starts_with "provider:openai" "provider:" = true := by decide
  have hp2 : str_starts_with "model:gpt-4o" "provider:" = false := by decide
  have hp3 : str_starts_with "model:gpt-4o" "model:" = true := by decide
  have hd1 : ("provider:openai").drop 9 = "openai" := rfl
  have hd2 : ("model:gpt-4o").drop 6 = "gpt-4o" := rfl
  obtain ⟨s0, hs0⟩ :
      ∃ s0, getChat
        (if getChat store chatId = none
          then putChat store chatId ⟨some d.provider, some d.modelId⟩
          else store) chatId = some s0 := by
    by_cases h : getChat store chatId = none
    · exact ⟨_, by rw [if_pos h]; exact getChat_putChat_self store chatId _⟩
    · obtain ⟨s, hs⟩ := Option.ne_none_iff_exists'.mp h
      exact ⟨s, by rw [if_neg h]; exact hs⟩
  have h1 : getChat (button_callback d store chatId "provider:openai") chatId
      = some { s0 with model_provider := some "openai" } := by
    unfold button_callback
    rw [hp1, if_pos rfl, getChat_setChat_self, hs0, hd1]
    rfl
  generalize hgen : button_callback d store chatId "provider:openai" = st at h1 ⊢
  unfold button_callback
  simp [hp2, hp3, h1, getChat_setChat_self, hd2]

/-! ## Formation adapter: streaming (src/models/formation.py, lines 336-354)

`invoke_stream` iterates the response's lines.  For every line beginning
with `data:` it strips the payload (`line[5:].strip()`), breaks at the
`[DONE]` sentinel, and otherwise JSON-parses the payload, yielding the
parsed chunk and logging (then skipping) any payload that fails to
parse. -/

/-- The `for line in response.iter_lines()` loop, with `decode` standing
for `json.loads` (`none` = `json.JSONDecodeError`).  Returns the yielded
chunks and the logged malformed payloads, each in order. -/
def stream_lines (decode : String → Option Val) :
    List String → List Val × List String
  | [] => ([], [])
  | line :: rest =>
    if str_starts_with line "data:" then
      let ds := py_strip (line.drop 5)
      if ds = "[DONE]" then ([], [])
      else
        match decode ds with
        | some j =>
          let r := stream_lines decode rest
          (j :: r.1, r.2)
        | none =>
          let r := stream_lines decode rest
          (r.1, ds :: r.2)
    else stream_lines decode rest

/-- A line that terminates the loop: a `data:` line whose stripped
payload is the `[DONE]` sentinel. -/
def is_done_line (line : String) : Bool :=
  str_starts_with line "data:" && decide (py_strip (line.drop 5) = "[DONE]")

/-- What a single non-terminating line contributes to the yielded chunks. -/
def yield_of (decode : String → Option Val) (line : String) : Option Val :=
  if str_starts_with line "data:" then decode (py_strip (line.drop 5)) else none

/-- What a single non-terminating line contributes to the log. -/
def log_of (decode : String → Option Val) (line : String) : Option String :=
  if str_starts_with line "data:" ∧ decode (py_strip (line.drop 5)) = none
    then some (py_strip (line.drop 5)) else none

/-- A demonstration decoder: every payload parses except `BAD`. -/
def demo_decode (s : String) : Option Val :=
  if s = "BAD" then none else some (.str s)

/-- C4: a malformed streamed chunk is logged and skipped and does not
terminate the stream.  The yielded chunks are exactly the decodable
`data:` payloads of the lines before the first `[DONE]` sentinel, and
the logged payloads are exactly the undecodable ones — so every valid
chunk before and after a malformed chunk is still yielded, and iteration
stops only at `[DONE]` or at end of input.  Concretely, with `BAD`
malformed between two valid chunks, both valid chunks are yielded, `BAD`
is logged, and chunks after `[DONE]` are not yielded. -/
theorem stream_skips_malformed_chunks :
    (∀ (decode : String → Option Val) (lines : List String),
      stream_lines decode lines
        = ((lines.takeWhile (fun l => !(is_done_line l))).filterMap (yield_of decode),
           (lines.takeWhile (fun l => !(is_done_line l))).filterMap (log_of decode))) ∧
    stream_lines demo_decode
        ["data: A", ": keepalive", "data: BAD", "data: B", "data: [DONE]", "data: C"]
      = ([.str "A", .str "B"], ["BAD"]) := by
  constructor
  · intro decode lines
    induction lines with
    | nil => rfl
    | cons l rest ih =>
      by_cases hb : str_starts_with l "data:" = true
      · by_cases hds : py_strip (l.drop 5) = "[DONE]"
        · simp [stream_lines, is_done_line, hb, hds]
        · cases hdec : decode (py_strip (l.drop 5)) with
          | some j =>
            simp [stream_lines, is_done_line, yield_of, log_of, hb, hds, hdec, ih]
          | none =>
            simp [stream_lines, is_done_line, yield_of, log_of, hb, hds, hdec, ih]
      · simp [stream_lines, is_done_line, yield_of, log_of, hb, ih]
  · rfl

/-! ## Formation adapter: parse_tool_calls (src/models/formation.py, lines 413-457)

`tool_calls` is a list of dicts, each starting out as the empty dict
`{}` (modelled as `none`).  The first chunk for an index fills the
entry; later chunks for the same index append name/argument text and
conditionally overwrite id and type. -/

/-- The `function` sub-dict of a streamed tool-call chunk. -/
structure FnChunk where
  name : Option String := none
  arguments : Option String := none
deriving DecidableEq, Repr

/-- A streamed tool-call chunk as `parse_tool_calls` reads it:
`tool_call.get("index", 0)`, `.get("id")`, `.get("type", "function")`,
`.get("function", {})`. -/
structure ToolCallChunk where
  index : Option Nat := none
  id : Option String := none
  type : Option String := none
  function : Option FnChunk := none
deriving DecidableEq, Repr

/-- An assembled tool call: the dict
`{"id": ..., "type": ..., "function": {"name": ..., "arguments": ...}}`,
with the `function` sub-dict flattened.  The stored id may be Python
`None`. -/
structure ToolCallEntry where
  id : Option String
  type : String
  name : String
  arguments : String
deriving DecidableEq, Repr

/-- Python truthiness of a string-or-`None` value. -/
def truthy : Option String → Bool
  | none => false
  | some s => s ≠ ""

/-- `tool_call.get("index", 0)`. -/
def chunk_index (c : ToolCallChunk) : Nat := c.index.getD 0

/-- `tool_call.get("type", "function")`. -/
def chunk_type (c : ToolCallChunk) : String := c.type.getD "function"

/-- `tool_call.get("function", {}).get("name", "")`. -/
def chunk_name (c : ToolCallChunk) : String := (c.function.getD {}).name.getD ""

/-- `tool_call.get("function", {}).get("arguments", "")`. -/
def chunk_args (c : ToolCallChunk) : String := (c.function.getD {}).arguments.getD ""

/-- formation.py lines 435-436: extend `tool_calls` with empty dicts so
that `index` is in range. -/
def extend_to (tool_calls : List (Option ToolCallEntry)) (index : Nat) :
    List (Option ToolCallEntry) :=
  if tool_calls.length ≤ index
    then tool_calls ++ List.replicate (index - tool_calls.length + 1) none
    else tool_calls

/-- formation.py lines 447-455: accumulation into an already-established
entry — append name and argument text when non-empty, overwrite id when
truthy, overwrite type when truthy (note `tool_call.get("type",
"function")` defaults to `"function"`, which is truthy, so type is
overwritten even when the chunk carries no `type` key). -/
def acc_entry (e : ToolCallEntry) (c : ToolCallChunk) : ToolCallEntry :=
  let e1 := if chunk_name c ≠ "" then { e with name := e.name ++ chunk_name c } else e
  let e2 :=
    if chunk_args c ≠ "" then { e1 with arguments := e1.arguments ++ chunk_args c } else e1
  let e3 := if truthy c.id then { e2 with id := c.id } else e2
  if chunk_type c ≠ "" then { e3 with type := chunk_type c } else e3

/-- The loop body of `parse_tool_calls` (formation.py lines 426-455):
extend the list with empty dicts up to the chunk's index, then either
establish the entry (`if not tool_call_entry`) or accumulate into it. -/
def process_chunk (tool_calls : List (Option ToolCallEntry)) (c : ToolCallChunk) :
    List (Option ToolCallEntry) :=
  match (extend_to tool_calls (chunk_index c)).getD (chunk_index c) none with
  | none =>
    (extend_to tool_calls (chunk_index c)).set (chunk_index c)
      (some ⟨c.id, chunk_type c, chunk_name c, chunk_args c⟩)
  | some e =>
    (extend_to tool_calls (chunk_index c)).set (chunk_index c) (some (acc_entry e c))

/-- formation.py lines 413-457: fold the loop body over the streamed
chunk list, starting from the empty list. -/
def parse_tool_calls (chunks : List ToolCallChunk) : List (Option ToolCallEntry) :=
  chunks.foldl process_chunk []

theorem length_extend_to (tcs : List (Option ToolCallEntry)) (i : Nat) :
    (extend_to tcs i).length = max tcs.length (i + 1) := by
  unfold extend_to
  split
  · simp
    omega
  · simp
    omega

theorem getD_extend_to (tcs : List (Option ToolCallEntry)) (i j : Nat) :
    (extend_to tcs i).getD j none = tcs.getD j none := by
  unfold extend_to
  split
  · rw [List.getD_eq_getD_get?, List.getD_eq_getD_get?,
        List.get?_eq_getElem?, List.get?_eq_getElem?]
    by_cases hj : j < tcs.length
    · rw [List.getElem?_append_left hj]
    · rw [List.getElem?_append_right (by omega), List.getElem?_replicate,
          List.getElem?_eq_none (by omega)]
      split <;> rfl
  · rfl

theorem length_process_chunk (tcs : List (Option ToolCallEntry)) (c : ToolCallChunk) :
    (process_chunk tcs c).length = max tcs.length (chunk_index c + 1) := by
  unfold process_chunk
  cases h : (extend_to tcs (chunk_index c)).getD (chunk_index c) none <;>
    simp [List.length_set, length_extend_to]

theorem getD_process_chunk_ne (tcs : List (Option ToolCallEntry)) (c : ToolCallChunk)
    (j : Nat) (h : chunk_index c ≠ j) :
    (process_chunk tcs c).getD j none = tcs.getD j none := by
  unfold process_chunk
  cases hm : (extend_to tcs (chunk_index c)).getD (chunk_index c) none <;>
  · rw [List.getD_eq_getD_get?, List.get?_eq_getElem?, List.getElem?_set_ne h,
        ← List.get?_eq_getElem?, ← List.getD_eq_getD_get?, getD_extend_to]

theorem foldl_process_chunk_length (chunks : List ToolCallChunk) :
    ∀ tcs, (chunks.foldl process_chunk tcs).length
      = chunks.foldl (fun a c => max a (chunk_index c + 1)) tcs.length := by
  induction chunks with
  | nil => intro tcs; rfl
  | cons c cs ih =>
    intro tcs
    rw [List.foldl_cons, List.foldl_cons, ih, length_process_chunk]

theorem foldl_process_chunk_getD (chunks : List ToolCallChunk) :
    ∀ tcs j, (∀ c ∈ chunks, chunk_index c ≠ j) →
      (chunks.foldl process_chunk tcs).getD j none = tcs.getD j none := by
  induction chunks with
  | nil => intro tcs j _; rfl
  | cons c cs ih =>
    intro tcs j h
    rw [List.foldl_cons, ih _ j (fun x hx => h x (by simp [hx])),
        getD_process_chunk_ne _ _ _ (h c (by simp))]

theorem foldl_max_succ (cs : List ToolCallChunk) :
    ∀ a, cs.foldl (fun a c => max a (chunk_index c + 1)) (a + 1)
      = cs.foldl (fun a c => max a (chunk_index c)) a + 1 := by
  induction cs with
  | nil => intro a; rfl
  | cons c cs ih =>
    intro a
    rw [List.foldl_cons, List.foldl_cons]
    have hmax : (a + 1) ⊔ (chunk_index c + 1) = (a ⊔ chunk_index c) + 1 := by omega
    rw [hmax, ih]

theorem extend_to_of_lt (tcs : List (Option ToolCallEntry)) (i : Nat)
    (h : i < tcs.length) : extend_to tcs i = tcs := by
  unfold extend_to
  rw [if_neg (by omega)]

theorem parse_tool_calls_append (chunks : List ToolCallChunk) (c : ToolCallChunk) :
    parse_tool_calls (chunks ++ [c]) = process_chunk (parse_tool_calls chunks) c := by
  unfold parse_tool_calls
  rw [List.foldl_append]
  rfl

theorem acc_entry_eq (e : ToolCallEntry) (c : ToolCallChunk) :
    acc_entry e c =
      ⟨if truthy c.id then c.id else e.id,
       if chunk_type c ≠ "" then chunk_type c else e.type,
       e.name ++ chunk_name c,
       e.arguments ++ chunk_args c⟩ := by
  unfold acc_entry
  by_cases h1 : chunk_name c = "" <;> by_cases h2 : chunk_args c = "" <;>
    by_cases h3 : truthy c.id <;> by_cases h4 : chunk_type c = "" <;>
      simp [h1, h2, h3, h4]

/-- First chunk of the spec's streaming example: index 0, id `a`, name
`f`, arguments `{"x":`. -/
def spec_chunk_one : ToolCallChunk :=
  { index := some 0, id := some "a",
    function := some { name := some "f", arguments := some "\x7b\"x\":" } }

/-- Second chunk of the spec's streaming example: index 0, arguments
`1}`. -/
def spec_chunk_two : ToolCallChunk :=
  { index := some 0, function := some { arguments := some "1\x7d" } }

/-- First chunk of the type-overwrite counterexample: establishes an
entry with type `custom`. -/
def type_cex_first : ToolCallChunk :=
  { index := some 0, id := some "a", type := some "custom",
    function := some { name := some "f", arguments := some "x" } }

/-- Second chunk of the type-overwrite counterexample: same index, no
`type` key, only more argument text. -/
def type_cex_second : ToolCallChunk :=
  { index := some 0, function := some { arguments := some "y" } }

/-- C3 counterexample: a later chunk without a `type` key still
overwrites the established type, because `tool_call.get("type",
"function")` defaults to the truthy string `"function"`
(formation.py lines 429 and 454-455).  Under the claim ("overwrites
id/type only when present in that chunk") the assembled type would have
remained `custom`; the code yields `function`. -/
theorem parse_tool_calls_type_overwrite_counterexample :
    parse_tool_calls [type_cex_first, type_cex_second]
        = [some ⟨some "a", "function", "f", "xy"⟩] ∧
      ¬ parse_tool_calls [type_cex_first, type_cex_second]
          = [some ⟨some "a", "custom", "f", "xy"⟩] := by
  constructor
  · rfl
  · decide

/-- C3 (amended): the first chunk for an index establishes id, type,
name and arguments; every later chunk for the same index appends its
name/argument text to the stored strings, overwrites id only when the
chunk carries a truthy id, and overwrites type with
`chunk.get("type", "function")` whenever that value is non-empty — i.e.
always, defaulting to `"function"`, when the chunk has no `type` key.
The spec's concrete example assembles to
`{id: "a", type: "function", name: "f", arguments: "{\"x\":1}"}`. -/
theorem parse_tool_calls_accumulation :
    parse_tool_calls [spec_chunk_one, spec_chunk_two]
        = [some ⟨some "a", "function", "f", "\x7b\"x\":1\x7d"⟩] ∧
    (∀ chunks c i e, chunk_index c = i →
      (parse_tool_calls chunks).get? i = some (some e) →
      (parse_tool_calls (chunks ++ [c])).get? i
        = some (some ⟨if truthy c.id then c.id else e.id,
                      if chunk_type c ≠ "" then chunk_type c else e.type,
                      e.name ++ chunk_name c,
                      e.arguments ++ chunk_args c⟩)) ∧
    (∀ chunks c i, chunk_index c = i →
      (parse_tool_calls chunks).getD i none = none →
      (parse_tool_calls (chunks ++ [c])).get? i
        = some (some ⟨c.id, chunk_type c, chunk_name c, chunk_args c⟩)) := by
  refine ⟨rfl, ?_, ?_⟩
  · intro chunks c i e hidx hget
    have hlt : i < (parse_tool_calls chunks).length := by
      by_contra hc
      push_neg at hc
      rw [List.get?_eq_getElem?, List.getElem?_eq_none (by omega)] at hget
      exact Option.noConfusion hget
    rw [parse_tool_calls_append]
    unfold process_chunk
    rw [hidx, extend_to_of_lt _ _ hlt]
    have hgetD : (parse_tool_calls chunks).getD i none = some e := by
      rw [List.getD_eq_getD_get?, hget]
      rfl
    rw [hgetD]
    simp [List.get?_eq_getElem?, List.getElem?_set_self, hlt, acc_entry_eq]
  · intro chunks c i hidx hnone
    rw [parse_tool_calls_append]
    unfold process_chunk
    rw [hidx]
    have key : (extend_to (parse_tool_calls chunks) i).getD i none = none := by
      rw [getD_extend_to]
      exact hnone
    rw [key]
    have hlt : i < (extend_to (parse_tool_calls chunks) i).length := by
      rw [length_extend_to]
      omega
    simp [List.get?_eq_getElem?, List.getElem?_set_self, hlt]

/-- A chunk that only references index 2, leaving slots 0 and 1 empty. -/
def gap_chunk : ToolCallChunk :=
  { index := some 2, id := some "g",
    function := some { name := some "h", arguments := some "z" } }

/-- Witness for `parse_tool_calls_accumulation`: the accumulation case at
the spec example's own chunks, and the establishment case on an empty
slot left by `gap_chunk`. -/
theorem parse_tool_calls_accumulation_witness :
    (parse_tool_calls ([spec_chunk_one] ++ [spec_chunk_two])).get? 0
        = some (some ⟨some "a", "function", "f", "\x7b\"x\":1\x7d"⟩) ∧
    (parse_tool_calls ([gap_chunk] ++ [spec_chunk_one])).get? 0
        = some (some ⟨some "a", "function", "f", "\x7b\"x\":"⟩) := by
  constructor
  · exact (parse_tool_calls_accumulation.2.1 [spec_chunk_one] spec_chunk_two 0
      ⟨some "a", "function", "f", "\x7b\"x\":"⟩ rfl (by decide)).trans (by decide)
  · exact (parse_tool_calls_accumulation.2.2 [gap_chunk] spec_chunk_one 0
      rfl (by decide)).trans (by decide)

/-- The largest index field occurring among the chunks (a chunk without
an `index` key counts as index 0). -/
def max_chunk_index (chunks : List ToolCallChunk) : Nat :=
  chunks.foldl (fun a c => max a (chunk_index c)) 0

/-- C9: for a non-empty chunk list, the list assembled by
`parse_tool_calls` has length `1 + max index`, and every position whose
index no chunk references holds the empty object (rather than raising):
the extension step pre-fills skipped positions with `{}`. -/
theorem parse_tool_calls_length_shape (chunks : List ToolCallChunk)
    (h : chunks ≠ []) :
    (parse_tool_calls chunks).length = max_chunk_index chunks + 1 ∧
    ∀ j, j < (parse_tool_calls chunks).length →
      (∀ c ∈ chunks, chunk_index c ≠ j) →
      (parse_tool_calls chunks).get? j = some none := by
  constructor
  · unfold parse_tool_calls max_chunk_index
    rw [foldl_process_chunk_length]
    cases chunks with
    | nil => exact absurd rfl h
    | cons c cs =>
      rw [List.foldl_cons, List.foldl_cons]
      have h0 : max ([] : List (Option ToolCallEntry)).length (chunk_index c + 1)
          = chunk_index c + 1 := by simp
      have h1 : max 0 (chunk_index c) = chunk_index c := by simp
      rw [h0, h1, foldl_max_succ]
  · intro j hj href
    have hD : (parse_tool_calls chunks).getD j none = none := by
      unfold parse_tool_calls
      rw [foldl_process_chunk_getD chunks [] j href]
      rfl
    rw [List.getD_eq_getD_get?] at hD
    cases hx : (parse_tool_calls chunks).get? j with
    | none =>
      exfalso
      rw [List.get?_eq_getElem?, List.getElem?_eq_none_iff] at hx
      omega
    | some x =>
      rw [hx] at hD
      simp at hD
      rw [hD]

/-- Witness for `parse_tool_calls_length_shape`: a single chunk with
index 2 yields a three-entry list whose unreferenced slot 0 is the empty
object. -/
theorem parse_tool_calls_length_shape_witness :
    (parse_tool_calls [gap_chunk]).length = max_chunk_index [gap_chunk] + 1 ∧
      (parse_tool_calls [gap_chunk]).get? 0 = some none :=
  ⟨(parse_tool_calls_length_shape [gap_chunk] (by decide)).1,
   (parse_tool_calls_length_shape [gap_chunk] (by decide)).2 0 (by decide) (by decide)⟩

/-! ## Formation adapter: request_kwargs (src/models/formation.py, lines 150-193)

`request_kwargs` builds the request dict: always `model`, each sampling
parameter only when not `None`, then tools/tool_choice when `_tools` is
set, and finally `dict.update(self.request_params)`. -/

/-- The `Formation` dataclass fields that `request_kwargs` reads
(formation.py lines 58-84; `tools` stands for `self._tools`, set by the
agno framework).  Parameter values are opaque `Val` payloads. -/
structure FormationModel where
  id : String := "best-quality"
  temperature : Option Val := none
  max_tokens : Option Val := none
  top_p : Option Val := none
  stop : Option Val := none
  frequency_penalty : Option Val := none
  presence_penalty : Option Val := none
  seed : Option Val := none
  tools : Option Val := none
  tool_choice : Option Val := none
  request_params : Option (List (String × Val)) := none
deriving DecidableEq, Repr

/-- Python `d[k] = v`: overwrite in place, or append for a new key. -/
def dict_set : List (String × Val) → String → Val → List (String × Val)
  | [], k, v => [(k, v)]
  | (k0, v0) :: rest, k, v =>
    if k0 = k then (k0, v) :: rest else (k0, v0) :: dict_set rest k v

/-- Python `d.update(ps)`. -/
def dict_update (body : List (String × Val)) (ps : List (String × Val)) :
    List (String × Val) :=
  ps.foldl (fun b p => dict_set b p.1 p.2) body

/-- Python `k in d`. -/
def has_key (body : List (String × Val)) (k : String) : Bool :=
  body.any (fun p => p.1 == k)

/-- Python `d[k]` as an option. -/
def dict_get : List (String × Val) → String → Option Val
  | [], _ => none
  | (k0, v) :: rest, k => if k0 = k then some v else dict_get rest k

/-- `if x is not None: d[key] = x` on a fresh key added at the end. -/
def add_if (body : List (String × Val)) (k : String) : Option Val → List (String × Val)
  | some v => body ++ [(k, v)]
  | none => body

/-- formation.py lines 158-181: `model` plus the seven conditional
sampling parameters, in source order. -/
def sampling_body (m : FormationModel) : List (String × Val) :=
  add_if (add_if (add_if (add_if (add_if (add_if (add_if
    [("model", Val.str m.id)]
    "temperature" m.temperature)
    "max_tokens" m.max_tokens)
    "top_p" m.top_p)
    "stop" m.stop)
    "frequency_penalty" m.frequency_penalty)
    "presence_penalty" m.presence_penalty)
    "seed" m.seed

/-- formation.py lines 183-188: add `tools` and `tool_choice` when
`self._tools` is set (`tool_choice` defaults to `"auto"`). -/
def tools_body (m : FormationModel) : List (String × Val) :=
  match m.tools with
  | some tv =>
    (sampling_body m ++ [("tools", tv)])
      ++ [("tool_choice", m.tool_choice.getD (Val.str "auto"))]
  | none => sampling_body m

/-- formation.py lines 150-193 (`request_kwargs`). -/
def request_kwargs (m : FormationModel) : List (String × Val) :=
  match m.request_params with
  | some ps => dict_update (tools_body m) ps
  | none => tools_body m

/-- The sampling-parameter keys of the request body. -/
def SAMPLING_KEYS : List String :=
  ["temperature", "max_tokens", "top_p", "stop",
   "frequency_penalty", "presence_penalty", "seed"]

/-- The model field backing a sampling-parameter key. -/
def sampling_param (m : FormationModel) : String → Option Val
  | "temperature" => m.temperature
  | "max_tokens" => m.max_tokens
  | "top_p" => m.top_p
  | "stop" => m.stop
  | "frequency_penalty" => m.frequency_penalty
  | "presence_penalty" => m.presence_penalty
  | "seed" => m.seed
  | _ => none

theorem has_key_nil (k : String) : has_key [] k = false := rfl

theorem has_key_cons (p : String × Val) (b : List (String × Val)) (k : String) :
    has_key (p :: b) k = ((p.1 == k) || has_key b k) := by
  simp [has_key]

theorem has_key_append_single (b : List (String × Val)) (k' : String) (v : Val)
    (k : String) : has_key (b ++ [(k', v)]) k = (has_key b k || (k' == k)) := by
  simp [has_key]

theorem has_key_add_if (b : List (String × Val)) (k' : String) (o : Option Val)
    (k : String) :
    has_key (add_if b k' o) k = (has_key b k || ((k' == k) && o.isSome)) := by
  cases o <;> simp [add_if, has_key]

theorem has_key_dict_set_ne (b : List (String × Val)) (k' : String) (v : Val)
    (k : String) (h : k' ≠ k) : has_key (dict_set b k' v) k = has_key b k := by
  induction b with
  | nil => simp [dict_set, has_key, h]
  | cons p rest ih =>
    obtain ⟨pk, pv⟩ := p
    simp [has_key] at ih
    by_cases hp : pk = k' <;> simp [dict_set, has_key, hp, ih]

theorem has_key_dict_update_not_mem (ps : List (String × Val)) :
    ∀ b k, (∀ p ∈ ps, p.1 ≠ k) →
      has_key (dict_update b ps) k = has_key b k := by
  induction ps with
  | nil => intro b k _; rfl
  | cons p rest ih =>
    intro b k h
    show has_key (dict_update (dict_set b p.1 p.2) rest) k = _
    rw [ih _ k (fun q hq => h q (List.mem_cons_of_mem p hq)),
        has_key_dict_set_ne _ _ _ _ (h p (List.mem_cons_self p rest))]

/-- A model with no sampling parameter set but a `request_params` extra
dict that injects `temperature`. -/
def injected_params_model : FormationModel :=
  { request_params := some [("temperature", Val.num 1)] }

/-- C8 counterexample: `request_params` is merged into the body last
(formation.py lines 190-191), so the request body can contain a
sampling-parameter key even though that parameter is `None` on the model
instance, refuting the claimed "if and only if". -/
theorem request_kwargs_counterexample :
    has_key (request_kwargs injected_params_model) "temperature" = true ∧
      injected_params_model.temperature = none := ⟨rfl, rfl⟩

/-- C8 (amended): the request body contains a sampling-parameter key iff
that parameter is set (not `None`) on the model instance, provided the
extra `request_params` dict (merged last) does not itself supply that
key. -/
theorem request_kwargs_sampling_keys (m : FormationModel) (k : String)
    (hk : k ∈ SAMPLING_KEYS)
    (hrp : ∀ p ∈ m.request_params.getD [], p.1 ≠ k) :
    has_key (request_kwargs m) k = (sampling_param m k).isSome := by
  have hupd : has_key (request_kwargs m) k = has_key (tools_body m) k := by
    unfold request_kwargs
    cases hc : m.request_params with
    | none => rfl
    | some ps =>
      refine has_key_dict_update_not_mem ps (tools_body m) k ?_
      rw [hc] at hrp
      simpa using hrp
  have htools : has_key (tools_body m) k = has_key (sampling_body m) k := by
    have hk1 : (("tools" : String) == k) = false := by fin_cases hk <;> decide
    have hk2 : (("tool_choice" : String) == k) = false := by fin_cases hk <;> decide
    unfold tools_body
    cases m.tools with
    | none => rfl
    | some tv =>
      rw [has_key_append_single, has_key_append_single, hk1, hk2]
      simp
  rw [hupd, htools]
  fin_cases hk <;>
    simp +decide [sampling_body, has_key_add_if, has_key_cons, has_key_nil,
      sampling_param]

/-- A model with only `temperature` set. -/
def plain_model : FormationModel := { temperature := some (Val.num 1) }

/-- Witness for `request_kwargs_sampling_keys`: with only `temperature`
set, the body carries `temperature` and omits `seed`. -/
theorem request_kwargs_sampling_keys_witness :
    has_key (request_kwargs plain_model) "temperature"
        = (sampling_param plain_model "temperature").isSome ∧
      has_key (request_kwargs plain_model) "seed"
        = (sampling_param plain_model "seed").isSome :=
  ⟨request_kwargs_sampling_keys plain_model "temperature" (by decide) (by decide),
   request_kwargs_sampling_keys plain_model "seed" (by decide) (by decide)⟩

/-! ## Formation adapter: _format_message (src/models/formation.py, lines 222-245)

The message dict is built with possibly-`None` values, `None`-valued
keys are dropped, and then `tool_calls` is forced back to an explicit
`None` when the message has no tool calls. -/

/-- The agno `Message` fields `_format_message` reads.  `content` is the
chat text (`None` for tool-call-only messages); `tool_calls` is an
opaque list payload. -/
structure AgnoMessage where
  role : String
  content : Option String := none
  name : Option String := none
  tool_name : Option String := none
  tool_call_id : Option String := none
  tool_calls : Option (List String) := none
deriving DecidableEq, Repr

/-- Python `a or b` on string-or-`None` values (`message.name or
message.tool_name`). -/
def py_or (a b : Option String) : Option String :=
  if truthy a then a else b

/-- formation.py lines 222-245 (`_format_message`): build the dict, drop
`None` values, then set `tool_calls` to `None` when the message has no
tool calls. -/
def format_message (m : AgnoMessage) : List (String × Val) :=
  let entries : List (String × Option Val) :=
    [("role", some (Val.str m.role)),
     ("content", some (Val.str (m.content.getD ""))),
     ("name", (py_or m.name m.tool_name).map Val.str),
     ("tool_call_id", m.tool_call_id.map Val.str),
     ("tool_calls", m.tool_calls.map Val.blobList)]
  let filtered := entries.filterMap (fun p => p.2.map (fun v => (p.1, v)))
  if m.tool_calls = none ∨ m.tool_calls = some []
    then dict_set filtered "tool_calls" Val.null
    else filtered

theorem dict_get_dict_set_self (b : List (String × Val)) (k : String) (v : Val) :
    dict_get (dict_set b k v) k = some v := by
  induction b with
  | nil => simp [dict_set, dict_get]
  | cons p rest ih =>
    obtain ⟨pk, pv⟩ := p
    by_cases hp : pk = k <;> simp [dict_set, dict_get, hp, ih]

theorem dict_get_dict_set_ne (b : List (String × Val)) (k' : String) (v : Val)
    (k : String) (h : k' ≠ k) : dict_get (dict_set b k' v) k = dict_get b k := by
  induction b with
  | nil => simp [dict_set, dict_get, h]
  | cons p rest ih =>
    obtain ⟨pk, pv⟩ := p
    by_cases hp : pk = k' <;> by_cases hq : pk = k <;>
      simp_all [dict_set, dict_get]

/-- C10: the formatted message always maps `"content"` to a string — a
message whose content is `None` is mapped to the empty string, never to
`null` — and whenever the message has no tool calls (`None` or the empty
list) the dict explicitly contains the key `"tool_calls"` mapped to
`null`, even though every other `None`-valued field is dropped. -/
theorem format_message_content_tool_calls (m : AgnoMessage) :
    dict_get (format_message m) "content" = some (Val.str (m.content.getD "")) ∧
    ((m.tool_calls = none ∨ m.tool_calls = some []) →
      dict_get (format_message m) "tool_calls" = some Val.null) := by
  constructor
  · unfold format_message
    by_cases hc : m.tool_calls = none ∨ m.tool_calls = some []
    · rw [if_pos hc, dict_get_dict_set_ne _ _ _ _ (by decide)]
      simp +decide [List.filterMap_cons, dict_get]
    · rw [if_neg hc]
      simp +decide [List.filterMap_cons, dict_get]
  · intro hc
    unfold format_message
    rw [if_pos hc, dict_get_dict_set_self]

/-- A message with `None` content and no tool calls. -/
def bare_message : AgnoMessage := { role := "assistant" }

/-- Witness for `format_message_content_tool_calls` at a concrete
message with `content = None` and `tool_calls = None`. -/
theorem format_message_content_tool_calls_witness :
    dict_get (format_message bare_message) "content" = some (Val.str "") ∧
      dict_get (format_message bare_message) "tool_calls" = some Val.null :=
  ⟨(format_message_content_tool_calls bare_message).1,
   (format_message_content_tool_calls bare_message).2 (Or.inl rfl)⟩

/-! ## Backend /chat endpoint (src/api/main.py, lines 93-136, and
src/agents/theoAgent.py)

`process_chat` builds a fresh agent per request and runs it.  Exceptions
inside `TheoAgent.process_message` are caught there (theoAgent.py lines
171-174) and become a generic failure string; exceptions inside
`TheoAgent.__init__` are re-raised (theoAgent.py lines 138-140) and the
endpoint's `except` turns them into an `HTTPException` with status 500
(main.py lines 131-136). -/

/-- Which provider API keys are configured (utils/config.py lines
96-97). -/
structure KeyConfig where
  formation_key : Bool
  openai_key : Bool
deriving DecidableEq, Repr

/-- theoAgent.py line 174. -/
def AGENT_FAILURE_REPLY : String :=
  "I encountered an error while processing your request. Please try again later."

/-- Python `a or b` for an optional string against a string default
(`request.modelProvider or DEFAULT_MODEL_PROVIDER`). -/
def py_or_str (a : Option String) (b : String) : String :=
  match a with
  | some s => if s ≠ "" then s else b
  | none => b

/-- One entry of the request's `chatContext`
(main.py lines 56-58 and 100-103). -/
structure PartyMessage where
  party : String
  message : String
deriving DecidableEq, Repr

/-- The `/chat` request body (main.py lines 60-66), without the unused
`apiKeys` field. -/
structure ChatRequest where
  chatContext : List PartyMessage
  systemPrompt : String
  modelProvider : Option String := none
  modelId : Option String := none
  chatId : Option String := none
deriving DecidableEq, Repr

/-- The `/chat` response body (main.py lines 68-72 and 121-129), with the
placeholder research/scheduling dicts omitted and `modelInfo`
flattened. -/
structure ChatResponse where
  response : String
  modelInfoProvider : String
  modelInfoModel : String
deriving DecidableEq, Repr

/-- theoAgent.py lines 59-81 (model selection inside
`TheoAgent.__init__`): `ValueError` when the selected provider's key is
missing or the provider is unknown, re-raised to the caller.  Tool setup
failures are swallowed by inner try/except blocks (lines 93-112), and
the agno `Agent` constructor is treated as total. -/
def create_agent (cfg : KeyConfig) (provider : String) : Except String Unit :=
  if provider = "formation" then
    if cfg.formation_key then .ok ()
    else .error "Formation API key is required for Formation models"
  else if provider = "openai" then
    if cfg.openai_key then .ok ()
    else .error "OpenAI API key is required for OpenAI models"
  else .error ("Unsupported model provider: " ++ provider)

/-- theoAgent.py lines 186-192 (`_format_chat_context`). -/
def format_chat_context (ctx : List PartyMessage) : String :=
  String.intercalate "\n" (ctx.map (fun m => m.party ++ ": " ++ m.message))

/-- theoAgent.py lines 142-174 (`TheoAgent.process_message`): run the
agent on the formatted context (`run sysPrompt ctx` abstracts
`agent.run`, with `.error` = any exception it raises); every exception
is caught and becomes the fixed failure string. -/
def agent_process_message (run : String → String → Except String String)
    (ctx : List PartyMessage) (system_prompt : String) : String :=
  match run system_prompt (format_chat_context ctx) with
  | .ok content => content
  | .error _ => AGENT_FAILURE_REPLY

/-- main.py lines 93-136 (`process_chat`): resolve provider/model with
the `or`-defaults, build the agent, run it, and wrap the text in a
`ChatResponse`; any exception escaping inside the handler becomes an
`HTTPException` with status 500 (modelled as `.error (500, detail)`). -/
def process_chat (d : Defaults) (cfg : KeyConfig)
    (run : String → String → Except String String) (req : ChatRequest) :
    Except (Nat × String) ChatResponse :=
  match create_agent cfg (py_or_str req.modelProvider d.provider) with
  | .error e => .error (500, "Error processing chat request: " ++ e)
  | .ok _ =>
    .ok ⟨agent_process_message run req.chatContext req.systemPrompt,
         py_or_str req.modelProvider d.provider, py_or_str req.modelId d.modelId⟩

/-- A request selecting an unknown provider. -/
def bogus_request : ChatRequest :=
  { chatContext := [⟨"alice", "hi"⟩], systemPrompt := "sp",
    modelProvider := some "bogus" }

/-- C2 counterexample: a `ValueError` raised while *building* the agent
(unsupported provider) is not converted into a failure string in the
response body — `process_chat` re-raises it as an `HTTPException` with
status 500, refuting "never propagated to the caller as an HTTP error
status". -/
theorem process_chat_build_error_counterexample :
    process_chat ⟨"formation", "best-quality"⟩ ⟨true, true⟩
        (fun _ _ => .error "boom") bogus_request
      = .error (500, "Error processing chat request: Unsupported model provider: bogus") :=
  rfl

/-- C2 (amended): any exception raised while *running* the agent is
caught and converted into the generic failure string returned in the
response body, and the endpoint then returns no HTTP error; but an
exception raised while *building* the agent propagates as an HTTP 500
error. -/
theorem process_chat_run_error_handling (d : Defaults) (cfg : KeyConfig)
    (run : String → String → Except String String) (req : ChatRequest)
    (hok : create_agent cfg (py_or_str req.modelProvider d.provider) = .ok ()) :
    (∀ e, run req.systemPrompt (format_chat_context req.chatContext) = .error e →
      process_chat d cfg run req
        = .ok ⟨AGENT_FAILURE_REPLY, py_or_str req.modelProvider d.provider,
               py_or_str req.modelId d.modelId⟩) ∧
    (∀ c, run req.systemPrompt (format_chat_context req.chatContext) = .ok c →
      process_chat d cfg run req
        = .ok ⟨c, py_or_str req.modelProvider d.provider,
               py_or_str req.modelId d.modelId⟩) ∧
    (∀ err, process_chat d cfg run req ≠ .error err) := by
  refine ⟨?_, ?_, ?_⟩
  · intro e he
    unfold process_chat
    rw [hok]
    unfold agent_process_message
    rw [he]
  · intro c hc
    unfold process_chat
    rw [hok]
    unfold agent_process_message
    rw [hc]
  · intro err
    unfold process_chat
    rw [hok]
    exact fun h => Except.noConfusion h

/-- Witness for `process_chat_run_error_handling`: a crashing agent run
still yields a 200 body carrying the generic failure string. -/
theorem process_chat_run_error_handling_witness :
    process_chat ⟨"formation", "best-quality"⟩ ⟨true, true⟩
        (fun _ _ => .error "boom")
        { chatContext := [⟨"alice", "hi"⟩], systemPrompt := "sp" }
      = .ok ⟨AGENT_FAILURE_REPLY, "formation", "best-quality"⟩ :=
  (process_chat_run_error_handling ⟨"formation", "best-quality"⟩ ⟨true, true⟩
    (fun _ _ => .error "boom")
    { chatContext := [⟨"alice", "hi"⟩], systemPrompt := "sp" } rfl).1 "boom" rfl

end TheoAI
